import Mathlib

/-!
Shallow embedding of the `uow` Go package (unit-of-work coordinator with a
MongoDB backend and an in-memory mock backend), together with proofs of the
behavioural properties of its coordinator `UoW.Run`, its pass-through
accessor `UoW.Get`, and the two backends.

Go errors are modelled as an inductive chain (`GoError`): `errors.New`
becomes `GoError.base`, and `errors.Wrap`/`errors.Wrapf` from
github.com/pkg/errors become `GoError.wrap cause msg`, whose rendered
message is `msg ++ ": " ++ cause.message` and whose `errors.Is` walks the
cause chain. Effectful Go methods become explicit state-passing functions,
and the coordinator records a trace of the backend calls it performs, one
event per call site in the Go source.
-/

/-- Go error values: `base` is `errors.New msg`; `wrap cause msg` is
pkg/errors `Wrap(cause, msg)` (message `msg ++ ": " ++ cause.message`,
unwrapping to `cause`). -/
inductive GoError where
  | base (msg : String)
  | wrap (cause : GoError) (msg : String)
deriving DecidableEq, Repr

/-- The string produced by the `Error()` method of the Go error. -/
def GoError.message : GoError → String
  | .base m => m
  | .wrap c m => m ++ ": " ++ c.message

/-- Go `errors.Is(e, t)`: `e` equals `t` or `t` appears in the cause chain of `e`. -/
def GoError.errorIs : GoError → GoError → Bool
  | .base m, t => GoError.base m == t
  | .wrap c m, t => GoError.wrap c m == t || c.errorIs t

/-- `errors.Is` lifted to nilable Go errors (`none` is the Go `nil`). -/
def errorsIsOpt : Option GoError → GoError → Bool
  | some e, t => e.errorIs t
  | none, _ => false

theorem GoError.errorIs_self (e : GoError) : e.errorIs e = true := by
  cases e <;> simp [GoError.errorIs]

/-- The four-method backend contract (`Runner` interface in uow.go).
`C` is the context type, `σ` the mutable state of the backend, `α` the type
returned by `Get`. Each effectful method passes the state explicitly;
an error result of `none` is the Go `nil` error. -/
structure Runner (C σ α : Type) where
  Ctx : C → σ → Except GoError C × σ
  Get : C → σ → α
  Commit : C → σ → Option GoError × σ
  Rollback : C → σ → Option GoError × σ

/-- One backend interaction performed by the coordinator during `Run`. -/
inductive Event (C : Type) where
  | ctxCall (parent : C)
  | fnCall (sc : C)
  | commitCall (sc : C)
  | rollbackCall (sc : C)
deriving DecidableEq, Repr

/-- Result of one `UoW.Run` invocation: the returned error, the final
backend state, and the ordered trace of calls the coordinator made. -/
structure RunResult (C σ : Type) where
  err : Option GoError
  state : σ
  events : List (Event C)

/-- The `UoW` struct: a lightweight wrapper around one `Runner`. -/
structure UoW (C σ α : Type) where
  runner : Runner C σ α

/-- `New` constructor from uow.go. -/
def UoW.New (r : Runner C σ α) : UoW C σ α := ⟨r⟩

/-- `UoW.Get`: delegates to the `Get` of the underlying runner. -/
def UoW.Get (u : UoW C σ α) (ctx : C) (s : σ) : α :=
  u.runner.Get ctx s

/-- `UoW.Run` from uow.go: obtain a scoped context via `Ctx` (wrapping a
failure with "failed to start transaction"), run `fn` on it, roll back on
`fn` error (combining the two errors when rollback itself fails, via
`Wrapf(err, "operation failed and rollback also failed: rollback error: %v", rbErr)`)
and commit otherwise, returning the result of `Commit`. Each backend call or
`fn` call appends the matching event. -/
def UoW.Run (u : UoW C σ α) (ctx : C) (fn : C → σ → Option GoError × σ)
    (s0 : σ) : RunResult C σ :=
  match u.runner.Ctx ctx s0 with
  | (.error e, s1) =>
      ⟨some (GoError.wrap e "failed to start transaction"), s1,
        [.ctxCall ctx]⟩
  | (.ok uowCtx, s1) =>
      match fn uowCtx s1 with
      | (some e, s2) =>
          match u.runner.Rollback uowCtx s2 with
          | (some rbErr, s3) =>
              ⟨some (GoError.wrap e
                  ("operation failed and rollback also failed: rollback error: "
                    ++ rbErr.message)), s3,
                [.ctxCall ctx, .fnCall uowCtx, .rollbackCall uowCtx]⟩
          | (none, s3) =>
              ⟨some e, s3,
                [.ctxCall ctx, .fnCall uowCtx, .rollbackCall uowCtx]⟩
      | (none, s2) =>
          ⟨(u.runner.Commit uowCtx s2).1, (u.runner.Commit uowCtx s2).2,
            [.ctxCall ctx, .fnCall uowCtx, .commitCall uowCtx]⟩

/-! ### MongoDB backend (`MongoTx`)

The mongo driver is modelled by value types for clients, sessions and
databases, a context that optionally carries a session (as
`mongo.SessionFromContext` / `mongo.NewSessionContext` expose it), and a
`MongoWorld` of oracles giving the outcome each driver call would have.
Each `MongoTx` method returns its Go result together with the ordered list
of driver calls it performed, so that session cleanup (`EndSession`) is
observable. -/

/-- A mongo client handle, identified abstractly. -/
structure MongoClient where
  id : Nat
deriving DecidableEq, Repr

/-- A mongo session: its identity and the client it came from. -/
structure MongoSession where
  sid : Nat
  client : MongoClient
deriving DecidableEq, Repr

/-- A Go `context.Context` as the mongo backend observes it: some opaque
parent payload plus the session the mongo driver may have attached. -/
structure MongoContext where
  base : Nat
  sess : Option MongoSession
deriving DecidableEq, Repr

/-- `mongo.NewSessionContext(ctx, sess)`: derive a context carrying `sess`. -/
def mongoNewSessionContext (ctx : MongoContext) (s : MongoSession) :
    MongoContext :=
  { ctx with sess := some s }

/-- `mongo.SessionFromContext(ctx)`: the session carried by `ctx`, if any. -/
def mongoSessionFromContext (ctx : MongoContext) : Option MongoSession :=
  ctx.sess

/-- A mongo database handle: the client it is bound to and its name. -/
structure MongoDatabase where
  client : MongoClient
  name : String
deriving DecidableEq, Repr

/-- `client.Database(name)`. -/
def MongoClient.Database (c : MongoClient) (name : String) : MongoDatabase :=
  ⟨c, name⟩

/-- `sess.Client()`. -/
def MongoSession.Client (s : MongoSession) : MongoClient :=
  s.client

/-- The `MongoTx` struct: a client and a database name. -/
structure MongoTx where
  client : MongoClient
  dbName : String

/-- `NewMongoTx` constructor. -/
def NewMongoTx (client : MongoClient) (dbName : String) : MongoTx :=
  ⟨client, dbName⟩

/-- Oracles fixing the outcome of each mongo driver call: what
`StartSession` on a given client returns, and what `StartTransaction`,
`CommitTransaction` and `AbortTransaction` on a given session return
(`none` is a `nil` error). -/
structure MongoWorld where
  startSessionResult : MongoClient → Except GoError MongoSession
  startTransactionResult : MongoSession → Option GoError
  commitTransactionResult : MongoSession → Option GoError
  abortTransactionResult : MongoSession → Option GoError

/-- One mongo driver call performed by a `MongoTx` method. -/
inductive MongoEvent where
  | startSession (c : MongoClient)
  | startTransaction (s : MongoSession)
  | commitTransaction (s : MongoSession)
  | abortTransaction (s : MongoSession)
  | endSession (s : MongoSession)
deriving DecidableEq, Repr

/-- `MongoTx.Ctx`: start a session on the stored client (returning its
error as-is on failure), start a transaction on it (wrapping a failure
with "error in starting transaction"), and on success return the parent
context with the session attached. -/
def MongoTx.Ctx (m : MongoTx) (w : MongoWorld) (ctx : MongoContext) :
    Except GoError MongoContext × List MongoEvent :=
  match w.startSessionResult m.client with
  | .error e => (.error e, [.startSession m.client])
  | .ok sess =>
      match w.startTransactionResult sess with
      | some e =>
          (.error (GoError.wrap e "error in starting transaction"),
            [.startSession m.client, .startTransaction sess])
      | none =>
          (.ok (mongoNewSessionContext ctx sess),
            [.startSession m.client, .startTransaction sess])

/-- `MongoTx.Get`: the database from the client of the session carried by the context when a
session is present, else the default database from the stored client. -/
def MongoTx.Get (m : MongoTx) (ctx : MongoContext) : MongoDatabase :=
  match mongoSessionFromContext ctx with
  | some sess => sess.Client.Database m.dbName
  | none => m.client.Database m.dbName

/-- `MongoTx.Rollback`: with a session in the context, abort the
transaction and (via `defer`) end the session afterwards, returning the
error of the abort call; with no session, do nothing and return `nil`. -/
def MongoTx.Rollback (m : MongoTx) (w : MongoWorld) (ctx : MongoContext) :
    Option GoError × List MongoEvent :=
  match mongoSessionFromContext ctx with
  | some sess =>
      (w.abortTransactionResult sess,
        [.abortTransaction sess, .endSession sess])
  | none => (none, [])

/-- `MongoTx.Commit`: with a session in the context, commit the
transaction and (via `defer`) end the session afterwards, returning the
error of the commit call; with no session, do nothing and return `nil`. -/
def MongoTx.Commit (m : MongoTx) (w : MongoWorld) (ctx : MongoContext) :
    Option GoError × List MongoEvent :=
  match mongoSessionFromContext ctx with
  | some sess =>
      (w.commitTransactionResult sess,
        [.commitTransaction sess, .endSession sess])
  | none => (none, [])

/-! ### In-memory mock backend (`MockTx` over `State`)

The `State` of the mock is its string value (the mutex only guards concurrent
access and has no sequential behaviour); each `State` method is a function
on that value. -/

/-- `State.SetValue`: replace the value. -/
def State.SetValue (v str : String) : String := str

/-- `State.Value`: read the value. -/
def State.Value (v : String) : String := v

/-- `State.Commit`: append " commited!". -/
def State.Commit (v : String) : String := v ++ " commited!"

/-- `State.Rollback`: append " rolled back!". -/
def State.Rollback (v : String) : String := v ++ " rolled back!"

/-- `MockTx` as a `Runner`: `Ctx` returns the context unchanged, `Get`
returns the state, `Commit`/`Rollback` apply the matching `State` method
and return `nil`. Polymorphic in the context type, as the mock never
inspects the context. -/
def NewMockTx (C : Type) : Runner C String String where
  Ctx := fun ctx s => (.ok ctx, s)
  Get := fun _ s => s
  Commit := fun _ s => (none, State.Commit s)
  Rollback := fun _ s => (none, State.Rollback s)

/-- `ErrRollback` sentinel from the tests. -/
def ErrRollback : GoError := GoError.base "rollback error"

/-! ### Coordinator theorems -/

/-- C1: if the operation returns an error and `Rollback` on the scoped
context also returns an error, `UoW.Run` returns the combined wrapped
error: `errors.Is` against the original operation error still succeeds,
and the rendered message carries the description of the rollback failure
(and of the original error). -/
theorem run_rollback_failed_combines_errors
    (r : Runner C σ α) (parent uctx : C) (s0 s1 s2 s3 : σ)
    (fn : C → σ → Option GoError × σ) (e rbErr : GoError)
    (hc : r.Ctx parent s0 = (.ok uctx, s1))
    (hf : fn uctx s1 = (some e, s2))
    (hr : r.Rollback uctx s2 = (some rbErr, s3)) :
    ((UoW.New r).Run parent fn s0).err =
      some (GoError.wrap e
        ("operation failed and rollback also failed: rollback error: "
          ++ rbErr.message)) ∧
    errorsIsOpt ((UoW.New r).Run parent fn s0).err e = true ∧
    Option.map GoError.message ((UoW.New r).Run parent fn s0).err =
      some ("operation failed and rollback also failed: rollback error: "
        ++ rbErr.message ++ ": " ++ e.message) := by
  simp [UoW.Run, UoW.New, hc, hf, hr, errorsIsOpt, GoError.errorIs,
    GoError.errorIs_self, GoError.message]

/-- Backend whose rollback always fails, driving the combined-error path. -/
def failingRollbackRunner : Runner Nat Nat Nat where
  Ctx := fun ctx s => (.ok (ctx + 1), s)
  Get := fun _ s => s
  Commit := fun _ s => (none, s)
  Rollback := fun _ s => (some (GoError.base "abort failed"), s)

theorem run_rollback_failed_combines_errors_witness :
    ((UoW.New failingRollbackRunner).Run 0
        (fun _ s => (some (GoError.base "boom"), s + 1)) 0).err =
      some (GoError.wrap (GoError.base "boom")
        ("operation failed and rollback also failed: rollback error: "
          ++ (GoError.base "abort failed").message)) ∧
    errorsIsOpt ((UoW.New failingRollbackRunner).Run 0
        (fun _ s => (some (GoError.base "boom"), s + 1)) 0).err
      (GoError.base "boom") = true ∧
    Option.map GoError.message ((UoW.New failingRollbackRunner).Run 0
        (fun _ s => (some (GoError.base "boom"), s + 1)) 0).err =
      some ("operation failed and rollback also failed: rollback error: "
        ++ (GoError.base "abort failed").message ++ ": "
        ++ (GoError.base "boom").message) :=
  run_rollback_failed_combines_errors failingRollbackRunner 0 1 0 0 1 1
    (fun _ s => (some (GoError.base "boom"), s + 1))
    (GoError.base "boom") (GoError.base "abort failed") rfl rfl rfl

/-- C2: if the operation returns an error and `Rollback` on the scoped
context succeeds, `UoW.Run` returns exactly the original operation error
(identity, not merely chain membership), and `Commit` is never invoked
during the call. -/
theorem run_rollback_ok_returns_original
    (r : Runner C σ α) (parent uctx : C) (s0 s1 s2 s3 : σ)
    (fn : C → σ → Option GoError × σ) (e : GoError)
    (hc : r.Ctx parent s0 = (.ok uctx, s1))
    (hf : fn uctx s1 = (some e, s2))
    (hr : r.Rollback uctx s2 = (none, s3)) :
    ((UoW.New r).Run parent fn s0).err = some e ∧
    ∀ c : C, Event.commitCall c ∉ ((UoW.New r).Run parent fn s0).events := by
  simp [UoW.Run, UoW.New, hc, hf, hr]

/-- Backend whose rollback succeeds, driving the plain rollback path. -/
def okRollbackRunner : Runner Nat Nat Nat where
  Ctx := fun ctx s => (.ok (ctx + 1), s)
  Get := fun _ s => s
  Commit := fun _ s => (none, s)
  Rollback := fun _ s => (none, s + 10)

theorem run_rollback_ok_returns_original_witness :
    ((UoW.New okRollbackRunner).Run 0
        (fun _ s => (some (GoError.base "boom"), s + 1)) 0).err =
      some (GoError.base "boom") ∧
    ∀ c : Nat, Event.commitCall c ∉
      ((UoW.New okRollbackRunner).Run 0
        (fun _ s => (some (GoError.base "boom"), s + 1)) 0).events :=
  run_rollback_ok_returns_original okRollbackRunner 0 1 0 0 1 11
    (fun _ s => (some (GoError.base "boom"), s + 1))
    (GoError.base "boom") rfl rfl rfl

/-- C3: if `Ctx` fails, `UoW.Run` returns that error wrapped with
"failed to start transaction" (so the acquisition error stays in the
chain), the operation is never invoked (no `fnCall` event, and the state
is exactly the one `Ctx` left), and neither `Commit` nor `Rollback` runs. -/
theorem run_acquire_failed_skips_fn
    (r : Runner C σ α) (parent : C) (s0 s1 : σ)
    (fn : C → σ → Option GoError × σ) (e : GoError)
    (hc : r.Ctx parent s0 = (.error e, s1)) :
    ((UoW.New r).Run parent fn s0).err =
      some (GoError.wrap e "failed to start transaction") ∧
    errorsIsOpt ((UoW.New r).Run parent fn s0).err e = true ∧
    (∀ c : C, Event.fnCall c ∉ ((UoW.New r).Run parent fn s0).events) ∧
    ((UoW.New r).Run parent fn s0).state = s1 := by
  simp [UoW.Run, UoW.New, hc, errorsIsOpt, GoError.errorIs,
    GoError.errorIs_self]

/-- Backend whose context acquisition always fails. -/
def failingCtxRunner : Runner Nat Nat Nat where
  Ctx := fun _ s => (.error (GoError.base "no connection"), s + 5)
  Get := fun _ s => s
  Commit := fun _ s => (none, s)
  Rollback := fun _ s => (none, s)

theorem run_acquire_failed_skips_fn_witness :
    ((UoW.New failingCtxRunner).Run 0 (fun _ s => (none, s + 100)) 0).err =
      some (GoError.wrap (GoError.base "no connection")
        "failed to start transaction") ∧
    errorsIsOpt ((UoW.New failingCtxRunner).Run 0
        (fun _ s => (none, s + 100)) 0).err
      (GoError.base "no connection") = true ∧
    (∀ c : Nat, Event.fnCall c ∉
      ((UoW.New failingCtxRunner).Run 0
        (fun _ s => (none, s + 100)) 0).events) ∧
    ((UoW.New failingCtxRunner).Run 0
        (fun _ s => (none, s + 100)) 0).state = 5 :=
  run_acquire_failed_skips_fn failingCtxRunner 0 0 5
    (fun _ s => (none, s + 100)) (GoError.base "no connection") rfl

/-- C4: if `Ctx` succeeds and the operation returns `nil`, `UoW.Run`
invokes `Commit` exactly once, on exactly the scoped context `Ctx`
produced, never invokes `Rollback`, and returns the result of `Commit`;
hence `Run` returns `nil` iff `Commit` succeeded. -/
theorem run_success_commits_once
    [DecidableEq C] (r : Runner C σ α) (parent uctx : C) (s0 s1 s2 : σ)
    (fn : C → σ → Option GoError × σ)
    (hc : r.Ctx parent s0 = (.ok uctx, s1))
    (hf : fn uctx s1 = (none, s2)) :
    List.count (Event.commitCall uctx)
      ((UoW.New r).Run parent fn s0).events = 1 ∧
    (∀ c : C, Event.rollbackCall c ∉ ((UoW.New r).Run parent fn s0).events) ∧
    ((UoW.New r).Run parent fn s0).err = (r.Commit uctx s2).1 ∧
    (((UoW.New r).Run parent fn s0).err = none ↔
      (r.Commit uctx s2).1 = none) := by
  simp [UoW.Run, UoW.New, hc, hf, List.count_cons]

/-- Backend whose every call succeeds, driving the commit path. -/
def okCommitRunner : Runner Nat Nat Nat where
  Ctx := fun ctx s => (.ok (ctx + 1), s)
  Get := fun _ s => s
  Commit := fun _ s => (none, s + 20)
  Rollback := fun _ s => (none, s)

theorem run_success_commits_once_witness :
    List.count (Event.commitCall 1)
      ((UoW.New okCommitRunner).Run 0 (fun _ s => (none, s + 1)) 0).events
      = 1 ∧
    (∀ c : Nat, Event.rollbackCall c ∉
      ((UoW.New okCommitRunner).Run 0
        (fun _ s => (none, s + 1)) 0).events) ∧
    ((UoW.New okCommitRunner).Run 0 (fun _ s => (none, s + 1)) 0).err =
      (okCommitRunner.Commit 1 1).1 ∧
    (((UoW.New okCommitRunner).Run 0 (fun _ s => (none, s + 1)) 0).err = none
      ↔ (okCommitRunner.Commit 1 1).1 = none) :=
  run_success_commits_once okCommitRunner 0 1 0 0 1
    (fun _ s => (none, s + 1)) rfl rfl

/-- C5: whenever `Ctx` succeeds, the trace of one `UoW.Run` call is
exactly the `Ctx` call, then the single operation call on the scoped
context, then exactly one of `Commit`/`Rollback` on that same scoped
context — in that strict order, with nothing else. -/
theorem run_event_order
    (r : Runner C σ α) (parent uctx : C) (s0 s1 : σ)
    (fn : C → σ → Option GoError × σ)
    (hc : r.Ctx parent s0 = (.ok uctx, s1)) :
    ∃ fin : Event C,
      (fin = Event.commitCall uctx ∨ fin = Event.rollbackCall uctx) ∧
      ((UoW.New r).Run parent fn s0).events =
        [Event.ctxCall parent, Event.fnCall uctx, fin] := by
  rcases hfn : fn uctx s1 with ⟨ferr, s2⟩
  cases ferr with
  | none =>
      exact ⟨Event.commitCall uctx, Or.inl rfl,
        by simp [UoW.Run, UoW.New, hc, hfn]⟩
  | some e =>
      rcases hrb : r.Rollback uctx s2 with ⟨rbErr, s3⟩
      cases rbErr with
      | none =>
          exact ⟨Event.rollbackCall uctx, Or.inr rfl,
            by simp [UoW.Run, UoW.New, hc, hfn, hrb]⟩
      | some rb =>
          exact ⟨Event.rollbackCall uctx, Or.inr rfl,
            by simp [UoW.Run, UoW.New, hc, hfn, hrb]⟩

theorem run_event_order_witness :
    ∃ fin : Event Nat,
      (fin = Event.commitCall 1 ∨ fin = Event.rollbackCall 1) ∧
      ((UoW.New okCommitRunner).Run 0
        (fun _ s => (none, s + 1)) 0).events =
        [Event.ctxCall 0, Event.fnCall 1, fin] :=
  run_event_order okCommitRunner 0 1 0 0 (fun _ s => (none, s + 1)) rfl

/-- C6: `UoW.Get` is a pure pass-through: for every context and state it
returns exactly what the `Get` of the wrapped runner returns, consulting
nothing besides that single wrapped backend reference. -/
theorem get_is_pass_through (u : UoW C σ α) (ctx : C) (s : σ) :
    u.Get ctx s = u.runner.Get ctx s ∧
    (UoW.New u.runner).Get ctx s = u.runner.Get ctx s :=
  ⟨rfl, rfl⟩

/-! ### MongoDB backend theorems -/

/-- C7: `MongoTx.Get` is total — it always returns a database handle, with
no error path — and on any context carrying no session it returns the
non-transactional default database taken directly from the stored client
with the stored database name. -/
theorem mongoGet_total_with_default_fallback (m : MongoTx) :
    (∀ ctx : MongoContext, ∃ c : MongoClient,
      m.Get ctx = c.Database m.dbName) ∧
    (∀ ctx : MongoContext, mongoSessionFromContext ctx = none →
      m.Get ctx = m.client.Database m.dbName) := by
  constructor
  · intro ctx
    cases h : mongoSessionFromContext ctx with
    | none => exact ⟨m.client, by simp [MongoTx.Get, h]⟩
    | some sess => exact ⟨sess.Client, by simp [MongoTx.Get, h]⟩
  · intro ctx h
    simp [MongoTx.Get, h]

theorem mongoGet_total_with_default_fallback_witness :
    mongoSessionFromContext ⟨0, none⟩ = none ∧
    (NewMongoTx ⟨7⟩ "appdb").Get ⟨0, none⟩ =
      MongoClient.Database ⟨7⟩ "appdb" :=
  ⟨rfl,
    (mongoGet_total_with_default_fallback (NewMongoTx ⟨7⟩ "appdb")).2
      ⟨0, none⟩ rfl⟩

/-- C8: on every context carrying a session, both `MongoTx.Commit` and
`MongoTx.Rollback` end the session (`EndSession` appears in their driver
trace) regardless of whether the underlying `CommitTransaction` /
`AbortTransaction` call errors, and each returns exactly that underlying
call result. -/
theorem mongo_finalizers_end_session
    (m : MongoTx) (w : MongoWorld) (ctx : MongoContext)
    (sess : MongoSession)
    (h : mongoSessionFromContext ctx = some sess) :
    ((m.Commit w ctx).1 = w.commitTransactionResult sess ∧
      MongoEvent.endSession sess ∈ (m.Commit w ctx).2) ∧
    ((m.Rollback w ctx).1 = w.abortTransactionResult sess ∧
      MongoEvent.endSession sess ∈ (m.Rollback w ctx).2) := by
  simp [MongoTx.Commit, MongoTx.Rollback, h]

/-- A mongo world where both finalizer calls themselves error. -/
def failingFinalizerWorld : MongoWorld where
  startSessionResult := fun c => .ok ⟨1, c⟩
  startTransactionResult := fun _ => none
  commitTransactionResult := fun _ => some (GoError.base "commit failed")
  abortTransactionResult := fun _ => some (GoError.base "abort failed")

theorem mongo_finalizers_end_session_witness :
    mongoSessionFromContext ⟨0, some ⟨1, ⟨7⟩⟩⟩ = some ⟨1, ⟨7⟩⟩ ∧
    ((((NewMongoTx ⟨7⟩ "appdb").Commit failingFinalizerWorld
        ⟨0, some ⟨1, ⟨7⟩⟩⟩).1 =
        failingFinalizerWorld.commitTransactionResult ⟨1, ⟨7⟩⟩ ∧
      MongoEvent.endSession ⟨1, ⟨7⟩⟩ ∈
        ((NewMongoTx ⟨7⟩ "appdb").Commit failingFinalizerWorld
          ⟨0, some ⟨1, ⟨7⟩⟩⟩).2) ∧
    (((NewMongoTx ⟨7⟩ "appdb").Rollback failingFinalizerWorld
        ⟨0, some ⟨1, ⟨7⟩⟩⟩).1 =
        failingFinalizerWorld.abortTransactionResult ⟨1, ⟨7⟩⟩ ∧
      MongoEvent.endSession ⟨1, ⟨7⟩⟩ ∈
        ((NewMongoTx ⟨7⟩ "appdb").Rollback failingFinalizerWorld
          ⟨0, some ⟨1, ⟨7⟩⟩⟩).2)) :=
  ⟨rfl,
    mongo_finalizers_end_session (NewMongoTx ⟨7⟩ "appdb")
      failingFinalizerWorld ⟨0, some ⟨1, ⟨7⟩⟩⟩ ⟨1, ⟨7⟩⟩ rfl⟩

/-- C10: when `StartSession` succeeds but `StartTransaction` fails,
`MongoTx.Ctx` returns no context and the transaction error wrapped with
"error in starting transaction", and it never calls `EndSession` on the
session it just started — the session is left un-released and the caller
gets no scoped context through which `Commit` or `Rollback` could release
it. -/
theorem mongoCtx_failed_transaction_leaks_session
    (m : MongoTx) (w : MongoWorld) (ctx : MongoContext)
    (sess : MongoSession) (e : GoError)
    (hs : w.startSessionResult m.client = .ok sess)
    (ht : w.startTransactionResult sess = some e) :
    (m.Ctx w ctx).1 =
      .error (GoError.wrap e "error in starting transaction") ∧
    MongoEvent.startSession m.client ∈ (m.Ctx w ctx).2 ∧
    MongoEvent.endSession sess ∉ (m.Ctx w ctx).2 := by
  simp [MongoTx.Ctx, hs, ht]

/-- A mongo world where starting the transaction fails. -/
def failingStartTransactionWorld : MongoWorld where
  startSessionResult := fun c => .ok ⟨1, c⟩
  startTransactionResult := fun _ => some (GoError.base "tx refused")
  commitTransactionResult := fun _ => none
  abortTransactionResult := fun _ => none

theorem mongoCtx_failed_transaction_leaks_session_witness :
    failingStartTransactionWorld.startSessionResult ⟨7⟩ = .ok ⟨1, ⟨7⟩⟩ ∧
    failingStartTransactionWorld.startTransactionResult ⟨1, ⟨7⟩⟩ =
      some (GoError.base "tx refused") ∧
    ((NewMongoTx ⟨7⟩ "appdb").Ctx failingStartTransactionWorld
        ⟨0, none⟩).1 =
      .error (GoError.wrap (GoError.base "tx refused")
        "error in starting transaction") ∧
    MongoEvent.startSession ⟨7⟩ ∈
      ((NewMongoTx ⟨7⟩ "appdb").Ctx failingStartTransactionWorld
        ⟨0, none⟩).2 ∧
    MongoEvent.endSession ⟨1, ⟨7⟩⟩ ∉
      ((NewMongoTx ⟨7⟩ "appdb").Ctx failingStartTransactionWorld
        ⟨0, none⟩).2 :=
  ⟨rfl, rfl,
    mongoCtx_failed_transaction_leaks_session (NewMongoTx ⟨7⟩ "appdb")
      failingStartTransactionWorld ⟨0, none⟩ ⟨1, ⟨7⟩⟩
      (GoError.base "tx refused") rfl rfl⟩

/-! ### Mock backend scenario -/

/-- C9: running the TestRollback scenario — the operation sets the mock
state to "test state" and returns the `ErrRollback` sentinel — leaves the
observed state equal to "test state rolled back!" and returns an error
that chain-matches (indeed equals) the sentinel. -/
theorem mock_rollback_scenario :
    ((UoW.New (NewMockTx Unit)).Run ()
      (fun _ s => (some ErrRollback, State.SetValue s "test state"))
      "").state = "test state rolled back!" ∧
    ((UoW.New (NewMockTx Unit)).Run ()
      (fun _ s => (some ErrRollback, State.SetValue s "test state"))
      "").err = some ErrRollback ∧
    errorsIsOpt (((UoW.New (NewMockTx Unit)).Run ()
      (fun _ s => (some ErrRollback, State.SetValue s "test state"))
      "").err) ErrRollback = true :=
  ⟨rfl, rfl, by decide⟩
